import Mathlib

/-!
Verification development for the emerging_labs repository.

The Python modules under `backend/` are shallowly embedded as Lean
definitions:

* `backend/indep/xml_to_excel_new.py`  — `parse_xbrl_to_grouped_df`
* `backend/indep/xml_to_excel_cg.py`   — `parse_cg_xml_to_excel`
* `backend/indep/brsr_xml_to_excel.py` — `parse_brsr_xml_to_excel`
* `backend/routers/annual_files.py`, `quarterly_files.py`, `ratios.py`
* `backend/services/ratio_service.py`
* the outbound-request configuration of `backend/indep/scrape_it.py`
  and `backend/indep/scrape_main_rows.py`

Python dictionaries are modelled as insertion-ordered association
lists, which matches CPython's dict semantics (new keys appended,
existing keys updated in place).  XML trees are modelled as the list
of elements produced by `root.iter()` in document order; only the
tag, the `contextRef` attribute (`''` when absent) and the text
(`''` when `None`) are relevant to the grouping code.
-/

namespace ELabs

/-- Substring test on character lists: does `s` start with `pat`?
Models Python's `str.startswith` at the character level. -/
def hasPrefixL : List Char → List Char → Bool
  | _, [] => true
  | [], _ :: _ => false
  | c :: cs, d :: ds => c == d && hasPrefixL cs ds

/-- Substring test on character lists: does `pat` occur inside `s`?
Models Python's `pat in s`. -/
def hasInfixL (s pat : List Char) : Bool :=
  match s with
  | [] => hasPrefixL [] pat
  | c :: t => hasPrefixL (c :: t) pat || hasInfixL t pat

/-- Python's `pat in s` membership test for strings. -/
def strContains (s pat : String) : Bool :=
  hasInfixL s.data pat.data

/-- Whitespace recognizer for Python's `str.strip()`. -/
def isSpaceChar (c : Char) : Bool :=
  c == ' ' || c == '\t' || c == '\n' || c == '\r'

/-- Python's `s.strip()`: drop leading and trailing whitespace. -/
def pyStrip (s : String) : String :=
  String.mk (((s.data.dropWhile isSpaceChar).reverse.dropWhile isSpaceChar).reverse)

/-- Numeric value of a list of decimal digit characters. -/
def digitsToNat (cs : List Char) : Nat :=
  cs.foldl (fun n c => 10 * n + (c.toNat - 48)) 0

/-- The regex `(\d+)$` shared by all three groupers: the maximal
trailing run of decimal digits of `s`, as a number, or `none` when
`s` does not end in a digit.  Python then applies `int(...)` to the
matched group, which is what the returned `Nat` models. -/
def trailingId (s : String) : Option Nat :=
  let ds := (s.data.reverse.takeWhile Char.isDigit).reverse
  if ds.isEmpty then none else some (digitsToNat ds)

/-- One element of the parsed XML tree, as visited by `root.iter()`:
its (possibly namespaced) tag, its `contextRef` attribute
(`elem.get('contextRef', '')`), and its text (`''` for `None`). -/
structure XmlElem where
  tag : String
  contextRef : String
  text : String
deriving Repr, DecidableEq

/-- One extracted fact: `{'Element Name': ..., 'Context': ...,
'Fact Value': ...}` in the Python sources. -/
structure Fact where
  elementName : String
  context : String
  factValue : String
deriving Repr, DecidableEq

/-- `elem.tag.split('}')[-1]`: everything after the last closing
brace of the tag, i.e. the namespace prefix stripped. -/
def localName (tag : String) : String :=
  String.mk ((tag.data.reverse.takeWhile (fun c => c != '\x7d')).reverse)

/-- Step 1 shared by all three parsers: keep every element whose text
is non-blank (`elem.text and elem.text.strip()`) and whose
`contextRef` is non-empty, recording the local tag name, the context
and the stripped text. -/
def extractFacts (elems : List XmlElem) : List Fact :=
  elems.filterMap (fun e =>
    if pyStrip e.text ≠ "" ∧ e.contextRef ≠ "" then
      some { elementName := localName e.tag
             context := e.contextRef
             factValue := pyStrip e.text }
    else none)

/-- `d[k] = v` on a Python dict with string keys: update in place if
the key exists, append otherwise. -/
def setField {α : Type} (d : List (String × α)) (k : String) (v : α) :
    List (String × α) :=
  if d.any (fun p => p.1 == k) then
    d.map (fun p => if p.1 == k then (p.1, v) else p)
  else d ++ [(k, v)]

/-- A `defaultdict(dict)` keyed by integer group id, mapping each id
to a field dictionary. -/
abbrev GroupMap : Type := List (Nat × List (String × String))

/-- `grouped[gid][k] = v` on a `defaultdict(dict)`: a missing group id
is created with an empty dictionary first. -/
def setGroup (m : GroupMap) (gid : Nat) (k v : String) : GroupMap :=
  if m.any (fun p => p.1 == gid) then
    m.map (fun p => if p.1 == gid then (p.1, setField p.2 k v) else p)
  else m ++ [(gid, setField [] k v)]

/-- The list of integer keys of a group map, in insertion order. -/
def keysOf (m : GroupMap) : List Nat :=
  m.map (fun p => p.1)

/-- Dict lookup `m[gid]` as an option. -/
def lookupGroup (m : GroupMap) (gid : Nat) : Option (List (String × String)) :=
  (m.find? (fun p => p.1 == gid)).map (fun p => p.2)

/-- Dict lookup `d[k]` as an option. -/
def lookupField (d : List (String × String)) (k : String) : Option String :=
  (d.find? (fun p => p.1 == k)).map (fun p => p.2)

/-- Processing of one fact in Step 2 of
`xml_to_excel_new.parse_xbrl_to_grouped_df`: facts whose context has
no trailing digits are skipped; otherwise the context prefix decides
whether the element name is kept (`D_`), renamed to the
previous-year key (`RelatedPartyTransaction_PY`), or renamed to the
outstanding-balance key (anything else). -/
def rptStep (m : GroupMap) (f : Fact) : GroupMap :=
  match trailingId f.context with
  | none => m
  | some tid =>
    if hasPrefixL f.context.data "D_".data then
      setGroup m tid f.elementName f.factValue
    else if hasPrefixL f.context.data "RelatedPartyTransaction_PY".data then
      setGroup m tid "AmountOfRelatedPartyTransaction_PreviousYear" f.factValue
    else
      setGroup m tid "AmountOfRelatedPartyTransaction_Outstanding" f.factValue

/-- Steps 1-2 of `parse_xbrl_to_grouped_df`: the grouped mapping from
transaction id to field dictionary (steps 3-4 only reshape this
mapping into a DataFrame). -/
def parse_xbrl_to_grouped_df (elems : List XmlElem) : GroupMap :=
  (extractFacts elems).foldl rptStep []

/-- The five tables built by `xml_to_excel_cg.parse_cg_xml_to_excel`. -/
structure CGState where
  general_info : List (String × String)
  board_composition : GroupMap
  committee_composition : GroupMap
  board_meetings : GroupMap
  committee_meetings : GroupMap
deriving DecidableEq

def cgInit : CGState :=
  { general_info := []
    board_composition := []
    committee_composition := []
    board_meetings := []
    committee_meetings := [] }

/-- Step 3 of `parse_cg_xml_to_excel` for one fact: contexts equal to
`'MainD'` or `'MainI'` go to the general-info dict; contexts without
trailing digits are skipped; otherwise the substring of the context
picks one of the four numbered tables (or the fact is dropped). -/
def cgStep (st : CGState) (f : Fact) : CGState :=
  if f.context = "MainD" ∨ f.context = "MainI" then
    { st with general_info := setField st.general_info f.elementName f.factValue }
  else
    match trailingId f.context with
    | none => st
    | some iid =>
      if strContains f.context "CompBOD" then
        { st with board_composition :=
            setGroup st.board_composition iid f.elementName f.factValue }
      else if strContains f.context "CompComit" then
        { st with committee_composition :=
            setGroup st.committee_composition iid f.elementName f.factValue }
      else if strContains f.context "MeetingBOD" then
        { st with board_meetings :=
            setGroup st.board_meetings iid f.elementName f.factValue }
      else if strContains f.context "MeetingComit" then
        { st with committee_meetings :=
            setGroup st.committee_meetings iid f.elementName f.factValue }
      else st

/-- Steps 1-3 of `parse_cg_xml_to_excel` (step 4 writes the resulting
tables to Excel sheets). -/
def parse_cg_xml_to_excel (elems : List XmlElem) : CGState :=
  (extractFacts elems).foldl cgStep cgInit

/-- Python `d.get(k, dflt)` on a string-keyed dict. -/
def getDefault {α : Type} (d : List (String × α)) (k : String) (dflt : α) : α :=
  match d.find? (fun p => p.1 == k) with
  | some p => p.2
  | none => dflt

/-- The four tables built by `brsr_xml_to_excel.parse_brsr_xml_to_excel`;
`employee_details` is the nested `defaultdict(lambda: defaultdict(dict))`
keyed by employee type, then gender. -/
structure BRSRState where
  general_info : List (String × String)
  holdings_subsidiaries : GroupMap
  csr_projects : GroupMap
  employee_details : List (String × List (String × List (String × String)))
deriving DecidableEq

def brsrInit : BRSRState :=
  { general_info := []
    holdings_subsidiaries := []
    csr_projects := []
    employee_details := [] }

/-- The `gender` dimension extracted from an `Employees_TableA`
context in `parse_brsr_xml_to_excel` (default `'Total'`, overridden
by the first matching substring). -/
def brsrGender (context : String) : String :=
  if strContains context "Male" then "Male"
  else if strContains context "Female" then "Female"
  else if strContains context "OtherGender" then "Other"
  else "Total"

/-- The `emp_type` dimension extracted from an `Employees_TableA`
context in `parse_brsr_xml_to_excel` (default `'Overall'`). -/
def brsrEmpType (context : String) : String :=
  if strContains context "PermanentEmployees" then "Permanent"
  else if strContains context "OtherThanPermanentEmployees" then "Other Than Permanent"
  else "Overall"

/-- The nested `defaultdict` write
`employee_details[emp_type][gender][element_name] = value` performed
for an `Employees_TableA` fact. -/
def brsrEmployeeUpdate (st : BRSRState) (f : Fact) :
    List (String × List (String × List (String × String))) :=
  let byType := getDefault st.employee_details (brsrEmpType f.context) []
  let byGender := getDefault byType (brsrGender f.context) []
  setField st.employee_details (brsrEmpType f.context)
    (setField byType (brsrGender f.context)
      (setField byGender f.elementName f.factValue))

/-- Step 3 of `parse_brsr_xml_to_excel` for one fact: the
`Employees_TableA` pivot contexts are dimension-routed first (by
`brsrGender` and `brsrEmpType`, via `brsrEmployeeUpdate`), then
contexts containing `Main` or `Principle` go to general info under
the key `element_context`, then trailing-digit contexts are routed
by substring to the two numbered tables (or dropped). -/
def brsrStep (st : BRSRState) (f : Fact) : BRSRState :=
  if strContains f.context "Employees_TableA" then
    { st with employee_details := brsrEmployeeUpdate st f }
  else if strContains f.context "Main" || strContains f.context "Principle" then
    { st with general_info :=
        setField st.general_info (f.elementName ++ "_" ++ f.context) f.factValue }
  else
    match trailingId f.context with
    | none => st
    | some iid =>
      if strContains f.context "HoldingSubsidiaryAssociateCompanies" then
        { st with holdings_subsidiaries :=
            setGroup st.holdings_subsidiaries iid f.elementName f.factValue }
      else if strContains f.context "CSRProjectsAxis" then
        { st with csr_projects :=
            setGroup st.csr_projects iid f.elementName f.factValue }
      else st

/-- Steps 1-3 of `parse_brsr_xml_to_excel`. -/
def parse_brsr_xml_to_excel (elems : List XmlElem) : BRSRState :=
  (extractFacts elems).foldl brsrStep brsrInit

/-! ### HTTP layer (`backend/routers/`)

Every handler follows the same shape: a `try` block that may `raise
HTTPException(404, ...)` on missing lookups, wrapped by
`except Exception as e: raise HTTPException(500, str(e))`.
`fastapi.HTTPException` subclasses `Exception`, so that blanket
handler also catches the 404s raised inside the `try` block;
`str(HTTPException(code, detail))` is `f"{code}: {detail}"`.
The lookup calls (`get_ticker_from_company_number`, `map.get`) come
from service modules; their results are passed to the embedded
handlers as parameters. -/

/-- An exception live inside a handler's `try` block. -/
inductive PyExc where
  | http (status : Nat) (detail : String)
  | other (msg : String)
deriving Repr, DecidableEq

/-- Python `str(e)` on the exceptions we model. -/
def pyStr : PyExc → String
  | .http c d => toString c ++ ": " ++ d
  | .other m => m

/-- The response produced by a FastAPI handler: a JSON payload, or an
HTTPException escaping the handler. -/
inductive ApiResult (α : Type) where
  | ok (payload : α)
  | httpError (status : Nat) (detail : String)
deriving Repr, DecidableEq

/-- The `except Exception as e: raise HTTPException(500, str(e))`
wrapper shared by all six handlers. -/
def runHandler {α : Type} (inner : Except PyExc α) : ApiResult α :=
  match inner with
  | .ok v => .ok v
  | .error e => .httpError 500 (pyStr e)

/-- JSON payload of `GET /all` in `annual_files.py`. -/
structure AnnualAllResp where
  company_number : Int
  ticker : String
  annual_file_ids : List Nat
deriving Repr, DecidableEq

/-- Body of the `try` block of `annual_files.get_annual_files`;
`tickerRes` is the result of `get_ticker_from_company_number` and
`fileIdsRes` the result of `map.get(ticker)` (Python falsiness: a
missing or empty value trips the `if not ...` checks). -/
def get_annual_files_inner (cn : Int) (tickerRes : Option String)
    (fileIdsRes : Option (List Nat)) : Except PyExc AnnualAllResp :=
  match tickerRes with
  | none => .error (.http 404 "Company number not found.")
  | some t =>
    if t = "" then .error (.http 404 "Company number not found.")
    else
      match fileIdsRes with
      | none => .error (.http 404 "No annual files found for this company.")
      | some l =>
        if l = [] then .error (.http 404 "No annual files found for this company.")
        else .ok { company_number := cn, ticker := t, annual_file_ids := l }

/-- `annual_files.get_annual_files` with its `except Exception` wrapper. -/
def get_annual_files (cn : Int) (tickerRes : Option String)
    (fileIdsRes : Option (List Nat)) : ApiResult AnnualAllResp :=
  runHandler (get_annual_files_inner cn tickerRes fileIdsRes)

/-- JSON payload of `GET /yearly` in `annual_files.py`. -/
structure AnnualYearResp where
  company_number : Int
  ticker : String
  year : Int
  annual_file_id : Nat
deriving Repr, DecidableEq

/-- `year_to_index = {2022: 0, 2023: 1, 2024: 2}` with `.get(year)`. -/
def year_to_index (year : Int) : Option Nat :=
  if year = 2022 then some 0
  else if year = 2023 then some 1
  else if year = 2024 then some 2
  else none

/-- Body of the `try` block of `annual_files.get_annual_files_by_year`. -/
def get_annual_files_by_year_inner (cn : Int) (tickerRes : Option String)
    (fileIdsRes : Option (List Nat)) (year : Int) : Except PyExc AnnualYearResp :=
  match tickerRes with
  | none => .error (.http 404 "Company number not found.")
  | some t =>
    if t = "" then .error (.http 404 "Company number not found.")
    else
      match fileIdsRes with
      | none => .error (.http 404 "No annual files found for this company.")
      | some l =>
        if l = [] then .error (.http 404 "No annual files found for this company.")
        else
          match year_to_index year with
          | none => .error (.http 404 "Annual file for the requested year not available.")
          | some idx =>
            if l.length ≤ idx then
              .error (.http 404 "Annual file for the requested year not available.")
            else
              .ok { company_number := cn, ticker := t, year := year,
                    annual_file_id := l.getD idx 0 }

/-- `annual_files.get_annual_files_by_year` with its wrapper. -/
def get_annual_files_by_year (cn : Int) (tickerRes : Option String)
    (fileIdsRes : Option (List Nat)) (year : Int) : ApiResult AnnualYearResp :=
  runHandler (get_annual_files_by_year_inner cn tickerRes fileIdsRes year)

/-- JSON payload of `GET /all` in `quarterly_files.py`. -/
structure QuarterlyAllResp where
  company_number : Int
  ticker : String
  quarterly_file_ids : List Nat
deriving Repr, DecidableEq

/-- Body of the `try` block of `quarterly_files.get_quarterly_files`. -/
def get_quarterly_files_inner (cn : Int) (tickerRes : Option String)
    (fileIdsRes : Option (List Nat)) : Except PyExc QuarterlyAllResp :=
  match tickerRes with
  | none => .error (.http 404 "Company number not found.")
  | some t =>
    if t = "" then .error (.http 404 "Company number not found.")
    else
      match fileIdsRes with
      | none => .error (.http 404 "No quarterly files found for this company.")
      | some l =>
        if l = [] then .error (.http 404 "No quarterly files found for this company.")
        else .ok { company_number := cn, ticker := t, quarterly_file_ids := l }

/-- `quarterly_files.get_quarterly_files` with its wrapper. -/
def get_quarterly_files (cn : Int) (tickerRes : Option String)
    (fileIdsRes : Option (List Nat)) : ApiResult QuarterlyAllResp :=
  runHandler (get_quarterly_files_inner cn tickerRes fileIdsRes)

/-- JSON payload of `GET /quarterly` in `quarterly_files.py`. -/
structure QuarterResp where
  company_number : Int
  ticker : String
  quarter : Int
  quarterly_file_id : Nat
deriving Repr, DecidableEq

/-- Python list indexing `l[i]` with negative-index wrap-around;
`none` is an `IndexError`. -/
def pyIndex (l : List Nat) (i : Int) : Option Nat :=
  let j : Int := if i < 0 then (l.length : Int) + i else i
  if 0 ≤ j ∧ j < (l.length : Int) then l[j.toNat]? else none

/-- Body of the `try` block of
`quarterly_files.get_quarterly_files_by_quarter`: after the lookup
checks, quarters outside `1..4` or exceeding the list length are
rejected, and otherwise `file_ids[-quarter]` is returned (the last
item is Q1 counting from the end). -/
def get_quarterly_files_by_quarter_inner (cn : Int) (tickerRes : Option String)
    (fileIdsRes : Option (List Nat)) (quarter : Int) : Except PyExc QuarterResp :=
  match tickerRes with
  | none => .error (.http 404 "Company number not found.")
  | some t =>
    if t = "" then .error (.http 404 "Company number not found.")
    else
      match fileIdsRes with
      | none => .error (.http 404 "No quarterly files found for this company.")
      | some l =>
        if l = [] then .error (.http 404 "No quarterly files found for this company.")
        else if quarter < 1 ∨ 4 < quarter ∨ (l.length : Int) < quarter then
          .error (.http 404 "Quarterly file for the requested quarter not available.")
        else
          match pyIndex l (-quarter) with
          | some fid => .ok { company_number := cn, ticker := t, quarter := quarter,
                              quarterly_file_id := fid }
          | none => .error (.other "list index out of range")

/-- `quarterly_files.get_quarterly_files_by_quarter` with its wrapper. -/
def get_quarterly_files_by_quarter (cn : Int) (tickerRes : Option String)
    (fileIdsRes : Option (List Nat)) (quarter : Int) : ApiResult QuarterResp :=
  runHandler (get_quarterly_files_by_quarter_inner cn tickerRes fileIdsRes quarter)

/-! ### Ratio query service (`backend/services/ratio_service.py`) -/

/-- Python truthiness of an optional integer (`None` and `0` are falsy). -/
def pyTruthyOptInt : Option Int → Bool
  | none => false
  | some n => n != 0

/-- Python `range(a, b)` over integers. -/
def intRange (a b : Int) : List Int :=
  (List.range (b - a).toNat).map (fun i => a + (i : Int))

/-- `all_year_cols = [f'mar_{yr}' for yr in range(16, 26)]`. -/
def all_year_cols : List String :=
  (intRange 16 26).map (fun yr => "mar_" ++ toString yr)

/-- The `range(start, end + 1)` computed inside the
`if start_year or end_year:` branch of both service functions, where
a falsy bound falls back to 16 (resp. 25). -/
def rawYearRange (start_year end_year : Option Int) : List Int :=
  let start : Int := if pyTruthyOptInt start_year then start_year.getD 0 - 2000 else 16
  let stop : Int := if pyTruthyOptInt end_year then end_year.getD 0 - 2000 else 25
  intRange start (stop + 1)

/-- The year-column selection shared by `get_predefined_ratios`
(lines 27-39) and `get_ratios_by_parameters` (lines 112-124): the
requested range when one of the bounds is truthy, the full list
otherwise, with a final fallback to the full list when the selection
came out empty. -/
def selectedYearCols (start_year end_year : Option Int) : List String :=
  let sel : List String :=
    if pyTruthyOptInt start_year || pyTruthyOptInt end_year then
      (rawYearRange start_year end_year).map (fun yr => "mar_" ++ toString yr)
    else all_year_cols
  if sel.isEmpty then all_year_cols else sel

/-- Integer parse of a decimal string with an optional leading minus,
modelling Python's `int(...)` on the strings this code builds. -/
def strToInt (s : String) : Int :=
  match s.data with
  | '-' :: rest => -(Int.ofNat (digitsToNat rest))
  | cs => Int.ofNat (digitsToNat cs)

/-- `col.split('_')[1]`: the piece between the first and second
underscore (the code only ever applies it to `mar_..` columns). -/
def secondUnderscorePiece (col : String) : String :=
  String.mk (((col.data.dropWhile (fun c => c != '_')).drop 1).takeWhile (fun c => c != '_'))

/-- `f"Mar {2000 + int(col.split('_')[1])}"`. -/
def headerOfCol (col : String) : String :=
  "Mar " ++ toString (2000 + strToInt (secondUnderscorePiece col))

/-- A row of `public.financial_ratios` as seen through the
`RealDictCursor`: the key columns plus the selected `mar_..` columns
(`none` models a SQL NULL or an unselected column). -/
structure RatioRow where
  company_number : Int
  name : String
  percent_or_not : Bool
  cols : List (String × Option String)
deriving Repr, DecidableEq

/-- `ratio_row.get(col)`: `None` both for a missing key and a stored
NULL. -/
def rowGet (row : RatioRow) (col : String) : Option String :=
  match row.cols.find? (fun p => p.1 == col) with
  | some p => p.2
  | none => none

/-- Key presence in a string-keyed dict. -/
def hasKey {α : Type} (d : List (String × α)) (k : String) : Bool :=
  d.any (fun p => p.1 == k)

/-- The body of the `for col in selected_year_cols:` loop building one
`data_item`: store the value under the `Mar ...` header, with a `%`
suffix when the row is marked as a percentage and the value is not
NULL. -/
def formatStep (row : RatioRow) (d : List (String × Option String))
    (col : String) : List (String × Option String) :=
  let header_name := headerOfCol col
  match rowGet row col with
  | some v =>
    if row.percent_or_not then setField d header_name (some (v ++ "%"))
    else setField d header_name (some v)
  | none => setField d header_name none

/-- The `data_item` built for one ratio row: `{'Ratio': name}` then
one entry per selected year column. -/
def formatDataItem (selected : List String) (row : RatioRow) :
    List (String × Option String) :=
  selected.foldl (formatStep row) [("Ratio", some row.name)]

/-- One element of the list returned by the ratio service functions. -/
structure CompanyRatios where
  company_name : String
  ticker : String
  company_number : Int
  headers : List String
  data : List (List (String × Option String))
deriving Repr, DecidableEq

/-- `{row['id']: row for row in rows}` followed by `.get(cn)`:
the last row with a given id wins. -/
def companyDetailFor (rows : List (Int × String × String)) (cn : Int) :
    Option (Int × String × String) :=
  rows.reverse.find? (fun r => r.1 == cn)

/-- `ratio_service.get_predefined_ratios`, with the two database
result sets passed in: `company_details` models the rows of
`company_detail` (id, full_name, ticker) and `ratios_data` the rows
of `financial_ratios` restricted to the requested companies.
Companies without a detail row are skipped; for the rest one record
with per-ratio formatted data is produced. -/
def get_predefined_ratios (company_numbers : List Int)
    (start_year end_year : Option Int)
    (company_details : List (Int × String × String))
    (ratios_data : List RatioRow) : List CompanyRatios :=
  let selected := selectedYearCols start_year end_year
  company_numbers.filterMap (fun cn =>
    match companyDetailFor company_details cn with
    | none => none
    | some info =>
      let company_ratios := ratios_data.filter (fun r => r.company_number == cn)
      some { company_name := info.2.1
             ticker := info.2.2
             company_number := cn
             headers := "Ratio" :: selected.map headerOfCol
             data := company_ratios.map (formatDataItem selected) })

/-- Body of the `try` block of `ratios.get_ratios`: the service call
either raises (modelled by `.error msg`) or returns a list. -/
def get_ratios_inner (serviceRes : Except String (List CompanyRatios)) :
    Except PyExc (List CompanyRatios) :=
  match serviceRes with
  | .error msg => .error (.other msg)
  | .ok ratios =>
    if ratios = [] then
      .error (.http 404 "No ratio data found for the specified companies.")
    else .ok ratios

/-- `ratios.get_ratios` with its `except Exception` wrapper. -/
def get_ratios (serviceRes : Except String (List CompanyRatios)) :
    ApiResult (List CompanyRatios) :=
  runHandler (get_ratios_inner serviceRes)

/-- Body of the `try` block of `ratios.get_ratios_by_parameters_endpoint`:
a 404 when the list is empty or every record's `data` is empty. -/
def get_ratios_by_parameters_endpoint_inner
    (serviceRes : Except String (List CompanyRatios)) :
    Except PyExc (List CompanyRatios) :=
  match serviceRes with
  | .error msg => .error (.other msg)
  | .ok ratios =>
    if ratios = [] ∨ ¬ ratios.any (fun r => !r.data.isEmpty) then
      .error (.http 404 "No ratio data found for the specified companies and parameters.")
    else .ok ratios

/-- `ratios.get_ratios_by_parameters_endpoint` with its wrapper. -/
def get_ratios_by_parameters_endpoint
    (serviceRes : Except String (List CompanyRatios)) :
    ApiResult (List CompanyRatios) :=
  runHandler (get_ratios_by_parameters_endpoint_inner serviceRes)

/-! ### Outbound HTTP request sites of the scraping scripts

`scrape_it.py` builds a `requests.Session` with an
`HTTPAdapter(max_retries=Retry(total=5, status_forcelist=[429, 500,
502, 503, 504], backoff_factor=1, respect_retry_after_header=True))`
for both of its request sites, plus a manual extra sleep when a 429
surfaces; `scrape_main_rows.main` calls `requests.get` directly with
no adapter.  Each call site is recorded with its configuration. -/

/-- The `urllib3.util.retry.Retry(...)` keyword arguments. -/
structure RetryConf where
  total : Nat
  status_forcelist : List Nat
  backoff_factor : Nat
  respect_retry_after_header : Bool
deriving Repr, DecidableEq

/-- One outbound HTTP request site in the scraping scripts. -/
structure RequestSite where
  script : String
  call : String
  retryConf : Option RetryConf
  manualExtraBackoffOn429 : Bool
  preRequestSleep : Bool
deriving Repr, DecidableEq

/-- The retry strategy constructed in `scrape_it.py` (identically at
both of its request sites). -/
def scrapeItRetryConf : RetryConf :=
  { total := 5
    status_forcelist := [429, 500, 502, 503, 504]
    backoff_factor := 1
    respect_retry_after_header := true }

/-- `session.get(url, headers=headers)` inside
`scrape_it.get_html_content`. -/
def scrapeItPageSite : RequestSite :=
  { script := "scrape_it.py"
    call := "get_html_content: session.get(url)"
    retryConf := some scrapeItRetryConf
    manualExtraBackoffOn429 := true
    preRequestSleep := true }

/-- `session.get(api_base_url, params=params, headers=headers)` in the
main loop of `scrape_it.py`. -/
def scrapeItApiSite : RequestSite :=
  { script := "scrape_it.py"
    call := "main: session.get(api_base_url)"
    retryConf := some scrapeItRetryConf
    manualExtraBackoffOn429 := true
    preRequestSleep := true }

/-- `resp = requests.get(url, headers=HEADERS)` in
`scrape_main_rows.main`: a bare call on the module-level `requests`
API, with only a randomized sleep before it. -/
def scrapeMainRowsSite : RequestSite :=
  { script := "scrape_main_rows.py"
    call := "main: requests.get(url)"
    retryConf := none
    manualExtraBackoffOn429 := false
    preRequestSleep := true }

/-- Every outbound HTTP request site in the scraping scripts. -/
def outboundRequestSites : List RequestSite :=
  [scrapeItPageSite, scrapeItApiSite, scrapeMainRowsSite]

/-- The fixed retry-with-backoff policy described by the spec: a
bounded retry count of 5, the server-supplied `Retry-After` honored,
and extra backoff on rate-limit (429) responses. -/
def hasFixedRetryPolicy (s : RequestSite) : Bool :=
  match s.retryConf with
  | some p =>
    p.total == 5 && p.respect_retry_after_header &&
      (p.status_forcelist.contains 429 || s.manualExtraBackoffOn429)
  | none => false

/-! ### Helper lemmas -/

theorem keysOf_map_update (m : GroupMap) (gid : Nat)
    (g : Nat × List (String × String) → List (String × String)) :
    keysOf (m.map (fun p => if p.1 == gid then (p.1, g p) else p)) = keysOf m := by
  induction m with
  | nil => rfl
  | cons p t ih =>
    simp only [keysOf, List.map_cons] at ih ⊢
    by_cases h : p.1 == gid
    · rw [if_pos h, ih]
    · rw [if_neg h, ih]

theorem mem_keysOf_setGroup {m : GroupMap} {gid k : Nat} {a b : String}
    (h : k ∈ keysOf (setGroup m gid a b)) : k ∈ keysOf m ∨ k = gid := by
  unfold setGroup at h
  split at h
  · rw [keysOf_map_update] at h
    exact Or.inl h
  · simp only [keysOf, List.map_append, List.map_cons, List.map_nil,
      List.mem_append, List.mem_cons, List.not_mem_nil, or_false] at h
    rcases h with h | h
    · exact Or.inl h
    · exact Or.inr h

theorem mem_keysOf_rptStep {m : GroupMap} {f : Fact} {k : Nat}
    (h : k ∈ keysOf (rptStep m f)) :
    k ∈ keysOf m ∨ trailingId f.context = some k := by
  unfold rptStep at h
  cases hm : trailingId f.context with
  | none => rw [hm] at h; exact Or.inl h
  | some tid =>
    rw [hm] at h
    dsimp only at h
    have aux : ∀ {a b : String}, k ∈ keysOf (setGroup m tid a b) →
        k ∈ keysOf m ∨ some tid = some k := by
      intro a b hab
      rcases mem_keysOf_setGroup hab with h' | h'
      · exact Or.inl h'
      · exact Or.inr (by rw [h'])
    by_cases h1 : hasPrefixL f.context.data "D_".data = true
    · rw [if_pos h1] at h
      exact aux h
    · rw [if_neg h1] at h
      by_cases h2 : hasPrefixL f.context.data "RelatedPartyTransaction_PY".data = true
      · rw [if_pos h2] at h
        exact aux h
      · rw [if_neg h2] at h
        exact aux h

theorem mem_keysOf_foldl_rpt (facts : List Fact) (m : GroupMap) (k : Nat)
    (h : k ∈ keysOf (facts.foldl rptStep m)) :
    k ∈ keysOf m ∨ ∃ f, f ∈ facts ∧ trailingId f.context = some k := by
  induction facts generalizing m with
  | nil => exact Or.inl h
  | cons f t ih =>
    rcases ih (rptStep m f) h with h' | ⟨g, hg, hgid⟩
    · rcases mem_keysOf_rptStep h' with h'' | h''
      · exact Or.inl h''
      · exact Or.inr ⟨f, List.mem_cons_self f t, h''⟩
    · exact Or.inr ⟨g, List.mem_cons_of_mem f hg, hgid⟩

theorem mem_extractFacts {elems : List XmlElem} {f : Fact}
    (h : f ∈ extractFacts elems) :
    ∃ e, e ∈ elems ∧ pyStrip e.text ≠ "" ∧ e.contextRef ≠ "" ∧
      f.context = e.contextRef := by
  unfold extractFacts at h
  rw [List.mem_filterMap] at h
  rcases h with ⟨e, he, hsome⟩
  by_cases hc : pyStrip e.text ≠ "" ∧ e.contextRef ≠ ""
  · refine ⟨e, he, hc.1, hc.2, ?_⟩
    rw [if_pos hc] at hsome
    cases hsome
    rfl
  · rw [if_neg hc] at hsome
    cases hsome

/-- All integer keys present across the four numbered tables of a
`CGState`. -/
def allNumberedKeys (st : CGState) : List Nat :=
  keysOf st.board_composition ++ keysOf st.committee_composition ++
    keysOf st.board_meetings ++ keysOf st.committee_meetings

theorem mem_allNumberedKeys_cgStep {st : CGState} {f : Fact} {k : Nat}
    (h : k ∈ allNumberedKeys (cgStep st f)) :
    k ∈ allNumberedKeys st ∨ trailingId f.context = some k := by
  unfold cgStep at h
  by_cases hmain : f.context = "MainD" ∨ f.context = "MainI"
  · rw [if_pos hmain] at h
    exact Or.inl h
  · rw [if_neg hmain] at h
    cases hm : trailingId f.context with
    | none =>
      rw [hm] at h
      exact Or.inl h
    | some iid =>
      rw [hm] at h
      dsimp only at h
      have haux : k = iid → some iid = some k := fun he => by rw [he]
      by_cases h1 : strContains f.context "CompBOD" = true
      · rw [if_pos h1] at h
        simp only [allNumberedKeys, List.mem_append] at h
        rcases h with ((hx | hx) | hx) | hx
        · rcases mem_keysOf_setGroup hx with h' | h'
          · exact Or.inl (by simp only [allNumberedKeys, List.mem_append]; tauto)
          · exact Or.inr (haux h')
        all_goals exact Or.inl (by simp only [allNumberedKeys, List.mem_append]; tauto)
      · rw [if_neg h1] at h
        by_cases h2 : strContains f.context "CompComit" = true
        · rw [if_pos h2] at h
          simp only [allNumberedKeys, List.mem_append] at h
          rcases h with ((hx | hx) | hx) | hx
          · exact Or.inl (by simp only [allNumberedKeys, List.mem_append]; tauto)
          · rcases mem_keysOf_setGroup hx with h' | h'
            · exact Or.inl (by simp only [allNumberedKeys, List.mem_append]; tauto)
            · exact Or.inr (haux h')
          all_goals exact Or.inl (by simp only [allNumberedKeys, List.mem_append]; tauto)
        · rw [if_neg h2] at h
          by_cases h3 : strContains f.context "MeetingBOD" = true
          · rw [if_pos h3] at h
            simp only [allNumberedKeys, List.mem_append] at h
            rcases h with ((hx | hx) | hx) | hx
            · exact Or.inl (by simp only [allNumberedKeys, List.mem_append]; tauto)
            · exact Or.inl (by simp only [allNumberedKeys, List.mem_append]; tauto)
            · rcases mem_keysOf_setGroup hx with h' | h'
              · exact Or.inl (by simp only [allNumberedKeys, List.mem_append]; tauto)
              · exact Or.inr (haux h')
            · exact Or.inl (by simp only [allNumberedKeys, List.mem_append]; tauto)
          · rw [if_neg h3] at h
            by_cases h4 : strContains f.context "MeetingComit" = true
            · rw [if_pos h4] at h
              simp only [allNumberedKeys, List.mem_append] at h
              rcases h with ((hx | hx) | hx) | hx
              · exact Or.inl (by simp only [allNumberedKeys, List.mem_append]; tauto)
              · exact Or.inl (by simp only [allNumberedKeys, List.mem_append]; tauto)
              · exact Or.inl (by simp only [allNumberedKeys, List.mem_append]; tauto)
              · rcases mem_keysOf_setGroup hx with h' | h'
                · exact Or.inl (by simp only [allNumberedKeys, List.mem_append]; tauto)
                · exact Or.inr (haux h')
            · rw [if_neg h4] at h
              exact Or.inl h

theorem mem_allNumberedKeys_foldl_cg (facts : List Fact) (st : CGState) (k : Nat)
    (h : k ∈ allNumberedKeys (facts.foldl cgStep st)) :
    k ∈ allNumberedKeys st ∨ ∃ f, f ∈ facts ∧ trailingId f.context = some k := by
  induction facts generalizing st with
  | nil => exact Or.inl h
  | cons f t ih =>
    rcases ih (cgStep st f) h with h' | ⟨g, hg, hgid⟩
    · rcases mem_allNumberedKeys_cgStep h' with h'' | h''
      · exact Or.inl h''
      · exact Or.inr ⟨f, List.mem_cons_self f t, h''⟩
    · exact Or.inr ⟨g, List.mem_cons_of_mem f hg, hgid⟩


theorem hasKey_setField_self {α : Type} (d : List (String × α)) (k : String) (v : α) :
    hasKey (setField d k v) k = true := by
  unfold hasKey setField
  split
  · rename_i hc
    rw [List.any_eq_true] at hc ⊢
    rcases hc with ⟨p, hp, hpk⟩
    exact ⟨(p.1, v), List.mem_map.mpr ⟨p, hp, by rw [if_pos hpk]⟩, hpk⟩
  · rw [List.any_eq_true]
    refine ⟨(k, v), List.mem_append.mpr (Or.inr ?_), by simp⟩
    exact List.mem_singleton.mpr rfl

theorem hasKey_setField_mono {α : Type} {d : List (String × α)} {q : String}
    (k : String) (v : α) (h : hasKey d q = true) :
    hasKey (setField d k v) q = true := by
  unfold hasKey at h ⊢
  unfold setField
  rw [List.any_eq_true] at h
  rcases h with ⟨p, hp, hpq⟩
  split
  · rw [List.any_eq_true]
    refine ⟨if p.1 == k then (p.1, v) else p, List.mem_map.mpr ⟨p, hp, rfl⟩, ?_⟩
    by_cases hc : p.1 == k
    · rw [if_pos hc]
      exact hpq
    · rw [if_neg hc]
      exact hpq
  · rw [List.any_eq_true]
    exact ⟨p, List.mem_append.mpr (Or.inl hp), hpq⟩

theorem hasKey_formatStep_self (row : RatioRow) (d : List (String × Option String))
    (col : String) : hasKey (formatStep row d col) (headerOfCol col) = true := by
  unfold formatStep
  cases hr : rowGet row col with
  | none => exact hasKey_setField_self d (headerOfCol col) none
  | some v =>
    dsimp only
    by_cases hp : row.percent_or_not = true
    · rw [if_pos hp]
      exact hasKey_setField_self d (headerOfCol col) (some (v ++ "%"))
    · rw [if_neg hp]
      exact hasKey_setField_self d (headerOfCol col) (some v)

theorem hasKey_formatStep_mono (row : RatioRow) {d : List (String × Option String)}
    {q : String} (col : String) (h : hasKey d q = true) :
    hasKey (formatStep row d col) q = true := by
  unfold formatStep
  cases hr : rowGet row col with
  | none => exact hasKey_setField_mono _ _ h
  | some v =>
    dsimp only
    by_cases hp : row.percent_or_not = true
    · rw [if_pos hp]
      exact hasKey_setField_mono _ _ h
    · rw [if_neg hp]
      exact hasKey_setField_mono _ _ h

theorem hasKey_foldl_formatStep (row : RatioRow) (selected : List String) :
    ∀ d : List (String × Option String),
      (∀ q, hasKey d q = true → hasKey (selected.foldl (formatStep row) d) q = true) ∧
      (∀ c ∈ selected, hasKey (selected.foldl (formatStep row) d) (headerOfCol c) = true) := by
  induction selected with
  | nil =>
    intro d
    refine ⟨fun q h => h, fun c hc => absurd hc (List.not_mem_nil c)⟩
  | cons col t ih =>
    intro d
    constructor
    · intro q h
      exact (ih (formatStep row d col)).1 q (hasKey_formatStep_mono row col h)
    · intro c hc
      rcases List.mem_cons.mp hc with hceq | hc2
      · rw [hceq]
        exact (ih (formatStep row d col)).1 _ (hasKey_formatStep_self row d col)
      · exact (ih (formatStep row d col)).2 c hc2

theorem hasKey_formatDataItem (selected : List String) (row : RatioRow)
    {c : String} (hc : c ∈ selected) :
    hasKey (formatDataItem selected row) (headerOfCol c) = true :=
  (hasKey_foldl_formatStep row selected [("Ratio", some row.name)]).2 c hc

theorem all_year_cols_ne_nil : all_year_cols ≠ [] := by decide

theorem selectedYearCols_ne_nil (sy ey : Option Int) :
    selectedYearCols sy ey ≠ [] := by
  unfold selectedYearCols
  set sel := if pyTruthyOptInt sy || pyTruthyOptInt ey then
      (rawYearRange sy ey).map (fun yr => "mar_" ++ toString yr)
    else all_year_cols with hsel
  by_cases h : sel.isEmpty = true
  · rw [if_pos h]
    exact all_year_cols_ne_nil
  · rw [if_neg h]
    intro hnil
    rw [hnil] at h
    exact h rfl

theorem selectedYearCols_of_rawEmpty {sy ey : Option Int}
    (h : rawYearRange sy ey = []) : selectedYearCols sy ey = all_year_cols := by
  unfold selectedYearCols
  by_cases ht : (pyTruthyOptInt sy || pyTruthyOptInt ey) = true
  · rw [if_pos ht, h]
    rfl
  · rw [if_neg ht]
    rw [if_neg (by decide : ¬all_year_cols.isEmpty = true)]


/-! ### Claim theorems -/

/-- C1: the spec claims that every endpoint handler answers missing
lookups with a 404 and reserves 500 for non-lookup failures.  In the
code, each handler's blanket `except Exception as e: raise
HTTPException(500, str(e))` also catches the `HTTPException(404)`
raised inside the `try` block, so every missing lookup is answered
with a 500 whose detail embeds the original 404 message.  This
theorem evaluates all six embedded handlers at missing-lookup inputs
(unknown company number, empty file-id list, unavailable quarter,
empty ratio result) and shows the 500 response each time. -/
theorem routers_missing_lookup_returns_500 :
    get_annual_files 999 none none =
      .httpError 500 "404: Company number not found." ∧
    get_annual_files_by_year 999 none none 2022 =
      .httpError 500 "404: Company number not found." ∧
    get_annual_files 1 (some "TCS") (some []) =
      .httpError 500 "404: No annual files found for this company." ∧
    get_quarterly_files 999 none none =
      .httpError 500 "404: Company number not found." ∧
    get_quarterly_files_by_quarter 1 (some "TCS") (some [10]) 3 =
      .httpError 500 "404: Quarterly file for the requested quarter not available." ∧
    get_ratios (.ok []) =
      .httpError 500 "404: No ratio data found for the specified companies." ∧
    get_ratios_by_parameters_endpoint (.ok []) =
      .httpError 500 "404: No ratio data found for the specified companies and parameters." := by
  refine ⟨by decide, by decide, by decide, by decide, by decide, by decide, by decide⟩

/-- C2 counterexample: the claim says that in both grouper variants a
fact whose context lacks a trailing digit is routed to the
general-info bucket when the context contains the substring `Main`
or `Principle`, and dropped otherwise.  Both variants refute it.
For `parse_cg_xml_to_excel` the general-info test is exact equality
with `'MainD'`/`'MainI'`: the context `"MainPrinciple"` has no
trailing digit and contains both substrings, yet the fact is dropped
(the state, including the general-info bucket, is unchanged).  For
`parse_brsr_xml_to_excel` the context `"Employees_TableA_Male"` has
no trailing digit and contains neither substring, yet the fact is
not dropped: it is routed into the employee-details table (and not
into general info). -/
theorem no_digit_routing_claim_cex :
    trailingId "MainPrinciple" = none ∧
    strContains "MainPrinciple" "Main" = true ∧
    strContains "MainPrinciple" "Principle" = true ∧
    cgStep cgInit { elementName := "SomeElement", context := "MainPrinciple",
                    factValue := "v" } = cgInit ∧
    (parse_cg_xml_to_excel
      [{ tag := "SomeElement", contextRef := "MainPrinciple", text := "v" }]).general_info
      = [] ∧
    trailingId "Employees_TableA_Male" = none ∧
    strContains "Employees_TableA_Male" "Main" = false ∧
    strContains "Employees_TableA_Male" "Principle" = false ∧
    (brsrStep brsrInit ⟨"NoOfEmployees", "Employees_TableA_Male", "10"⟩).general_info
      = [] ∧
    (brsrStep brsrInit ⟨"NoOfEmployees", "Employees_TableA_Male", "10"⟩).employee_details
      = [("Overall", [("Male", [("NoOfEmployees", "10")])])] ∧
    (parse_brsr_xml_to_excel
      [{ tag := "NoOfEmployees", contextRef := "Employees_TableA_Male", text := "10" }]).employee_details
      = [("Overall", [("Male", [("NoOfEmployees", "10")])])] := by
  refine ⟨by decide, by decide, by decide, by decide, by decide, by decide,
    by decide, by decide, by decide, by decide, by decide⟩

/-- C2 amended: for `parse_cg_xml_to_excel`, a fact whose context has
no trailing digit is routed to the general-info bucket exactly when
its context equals `'MainD'` or `'MainI'`, and is dropped otherwise;
for `parse_brsr_xml_to_excel`, such a fact is first routed to the
employee-details table (under its `emp_type`/`gender` dimensions)
when its context contains `Employees_TableA`, otherwise to general
info (under the key `element_context`) when it contains `Main` or
`Principle`, and is dropped otherwise. -/
theorem no_digit_routing_amended :
    (∀ (st : CGState) (f : Fact), (f.context = "MainD" ∨ f.context = "MainI") →
      cgStep st f =
        { st with general_info := setField st.general_info f.elementName f.factValue }) ∧
    (∀ (st : CGState) (f : Fact), trailingId f.context = none →
      f.context ≠ "MainD" → f.context ≠ "MainI" → cgStep st f = st) ∧
    (∀ (st : BRSRState) (f : Fact), trailingId f.context = none →
      strContains f.context "Employees_TableA" = true →
      brsrStep st f = { st with employee_details := brsrEmployeeUpdate st f }) ∧
    (∀ (st : BRSRState) (f : Fact), trailingId f.context = none →
      strContains f.context "Employees_TableA" = false →
      (strContains f.context "Main" || strContains f.context "Principle") = true →
      brsrStep st f =
        { st with general_info :=
            setField st.general_info (f.elementName ++ "_" ++ f.context) f.factValue }) ∧
    (∀ (st : BRSRState) (f : Fact), trailingId f.context = none →
      strContains f.context "Employees_TableA" = false →
      (strContains f.context "Main" || strContains f.context "Principle") = false →
      brsrStep st f = st) := by
  refine ⟨?_, ?_, ?_, ?_, ?_⟩
  · intro st f h
    unfold cgStep
    rw [if_pos h]
  · intro st f h hd hi
    unfold cgStep
    rw [if_neg (by tauto), h]
  · intro st f h hemp
    unfold brsrStep
    rw [if_pos hemp]
  · intro st f h hemp hmain
    unfold brsrStep
    have hcond : ¬(strContains f.context "Employees_TableA" = true) := by
      rw [hemp]
      exact Bool.false_ne_true
    rw [if_neg hcond, if_pos hmain]
  · intro st f h hemp hmain
    unfold brsrStep
    have hcond : ¬(strContains f.context "Employees_TableA" = true) := by
      rw [hemp]
      exact Bool.false_ne_true
    have hcond2 : ¬((strContains f.context "Main" || strContains f.context "Principle") = true) := by
      rw [hmain]
      exact Bool.false_ne_true
    rw [if_neg hcond, if_neg hcond2, h]

/-- C2 witness: concrete applications of the amended routing rules:
a `MainD` fact lands in the cg general-info dict, an
`Employees_TableA_Female` fact lands in the brsr employee-details
table under its dimensions, and a `MainInfo` fact (no trailing
digit, contains `Main`) lands in the brsr general-info dict under
the concatenated key. -/
theorem no_digit_routing_amended_witness :
    cgStep cgInit ⟨"E", "MainD", "v"⟩ =
      { cgInit with general_info := setField cgInit.general_info "E" "v" } ∧
    (brsrStep brsrInit ⟨"N", "Employees_TableA_Female", "5"⟩).employee_details =
      [("Overall", [("Female", [("N", "5")])])] ∧
    brsrStep brsrInit ⟨"E", "MainInfo", "v"⟩ =
      { brsrInit with general_info := setField brsrInit.general_info ("E" ++ "_" ++ "MainInfo") "v" } := by
  refine ⟨no_digit_routing_amended.1 cgInit _ (Or.inl rfl), ?_,
    no_digit_routing_amended.2.2.2.1 brsrInit _ (by decide) (by decide) (by decide)⟩
  have h := no_digit_routing_amended.2.2.1 brsrInit
    ⟨"N", "Employees_TableA_Female", "5"⟩ (by decide) (by decide)
  rw [h]
  decide

/-- C3: every integer group id appearing as a key of the grouped
output (the transaction map of `parse_xbrl_to_grouped_df`, and any
of the four numbered tables of `parse_cg_xml_to_excel`) is the
trailing-digit suffix of the context reference of some non-blank-text
element of the input tree. -/
theorem group_ids_from_trailing_digits :
    (∀ (elems : List XmlElem) (k : Nat),
      k ∈ keysOf (parse_xbrl_to_grouped_df elems) →
      ∃ e, e ∈ elems ∧ pyStrip e.text ≠ "" ∧ e.contextRef ≠ "" ∧
        trailingId e.contextRef = some k) ∧
    (∀ (elems : List XmlElem) (k : Nat),
      k ∈ allNumberedKeys (parse_cg_xml_to_excel elems) →
      ∃ e, e ∈ elems ∧ pyStrip e.text ≠ "" ∧ e.contextRef ≠ "" ∧
        trailingId e.contextRef = some k) := by
  constructor
  · intro elems k h
    unfold parse_xbrl_to_grouped_df at h
    rcases mem_keysOf_foldl_rpt _ _ _ h with h0 | ⟨f, hf, hfk⟩
    · exact absurd h0 (List.not_mem_nil k)
    · rcases mem_extractFacts hf with ⟨e, he, ht, hc, hctx⟩
      refine ⟨e, he, ht, hc, ?_⟩
      rw [← hctx]
      exact hfk
  · intro elems k h
    unfold parse_cg_xml_to_excel at h
    rcases mem_allNumberedKeys_foldl_cg _ _ _ h with h0 | ⟨f, hf, hfk⟩
    · simp [allNumberedKeys, cgInit, keysOf] at h0
    · rcases mem_extractFacts hf with ⟨e, he, ht, hc, hctx⟩
      refine ⟨e, he, ht, hc, ?_⟩
      rw [← hctx]
      exact hfk

/-- The single-fact input of the spec's first worked example. -/
def c6_input : List XmlElem :=
  [{ tag := "in-capmkt\x7dNameOfCounterParty",
     contextRef := "D_RelatedPartyTransaction12",
     text := "Acme Ltd" }]

/-- C3 witness: the example input produces group id 12, and the
theorem recovers the element whose context ends in 12. -/
theorem group_ids_from_trailing_digits_witness :
    12 ∈ keysOf (parse_xbrl_to_grouped_df c6_input) ∧
    (∃ e, e ∈ c6_input ∧ pyStrip e.text ≠ "" ∧ e.contextRef ≠ "" ∧
      trailingId e.contextRef = some 12) :=
  ⟨by decide, group_ids_from_trailing_digits.1 c6_input 12 (by decide)⟩

/-- C4: a fact whose context has no trailing digit never contributes
to a numbered group: `parse_xbrl_to_grouped_df`'s step leaves the
transaction map untouched, and `parse_cg_xml_to_excel`'s step leaves
all four numbered tables untouched (the fact is dropped or, for
`'MainD'`/`'MainI'`, routed only to the general-info bucket). -/
theorem no_digit_never_in_numbered_group :
    (∀ (m : GroupMap) (f : Fact), trailingId f.context = none → rptStep m f = m) ∧
    (∀ (st : CGState) (f : Fact), trailingId f.context = none →
      (cgStep st f).board_composition = st.board_composition ∧
      (cgStep st f).committee_composition = st.committee_composition ∧
      (cgStep st f).board_meetings = st.board_meetings ∧
      (cgStep st f).committee_meetings = st.committee_meetings) := by
  constructor
  · intro m f h
    unfold rptStep
    rw [h]
  · intro st f h
    unfold cgStep
    by_cases hmain : f.context = "MainD" ∨ f.context = "MainI"
    · rw [if_pos hmain]
      exact ⟨rfl, rfl, rfl, rfl⟩
    · rw [if_neg hmain, h]
      exact ⟨rfl, rfl, rfl, rfl⟩

/-- C4 witness: concrete no-digit facts leave the related-party map
and the cg board-composition table unchanged. -/
theorem no_digit_never_in_numbered_group_witness :
    rptStep [] ⟨"A", "MainD", "v"⟩ = [] ∧
    (cgStep cgInit ⟨"A", "NoDigits", "v"⟩).board_composition = cgInit.board_composition :=
  ⟨no_digit_never_in_numbered_group.1 [] _ (by decide),
   (no_digit_never_in_numbered_group.2 cgInit _ (by decide)).1⟩

/-- C5: the grouper is a pure function of the parsed tree, so running
it twice on the same tree yields the same output mapping; all its
ingredients (dict insertion order, trailing-digit extraction,
document-order traversal) are deterministic. -/
theorem grouper_deterministic :
    ∀ elems : List XmlElem,
      parse_xbrl_to_grouped_df elems = parse_xbrl_to_grouped_df elems :=
  fun _ => rfl

/-- C6: a fact with context `D_RelatedPartyTransaction12`, local name
`NameOfCounterParty` and text `Acme Ltd` lands in group 12 with the
field `NameOfCounterParty = "Acme Ltd"`. -/
theorem rpt_example_group12 :
    (lookupGroup (parse_xbrl_to_grouped_df c6_input) 12).bind
      (fun d => lookupField d "NameOfCounterParty") = some "Acme Ltd" := by
  decide

/-- The single-fact input of the spec's second worked example. -/
def c7_input : List XmlElem :=
  [{ tag := "in-capmkt\x7dAmount",
     contextRef := "RelatedPartyTransaction_PY7",
     text := "500" }]

/-- C7: a fact with context `RelatedPartyTransaction_PY7`, local name
`Amount` and text `500` lands in group 7 under the renamed key
`AmountOfRelatedPartyTransaction_PreviousYear`, and the original
element name `Amount` does not appear in the group. -/
theorem rpt_example_py7 :
    (lookupGroup (parse_xbrl_to_grouped_df c7_input) 7).bind
      (fun d => lookupField d "AmountOfRelatedPartyTransaction_PreviousYear")
      = some "500" ∧
    (lookupGroup (parse_xbrl_to_grouped_df c7_input) 7).bind
      (fun d => lookupField d "Amount") = none := by
  decide

/-- C8 counterexample: the claim says every outbound HTTP request of
the scraping scripts goes through the fixed retry-with-backoff
policy.  The page fetch in `scrape_main_rows.main` is a bare
`requests.get` with no retry adapter at all. -/
theorem retry_policy_not_uniform_cex :
    scrapeMainRowsSite ∈ outboundRequestSites ∧
    hasFixedRetryPolicy scrapeMainRowsSite = false := by
  decide

/-- C8 amended: the two request sites of `scrape_it.py` both use the
fixed retry policy (5 total retries, `Retry-After` honored, 429 in
the retried status list, plus a manual extra sleep on 429), and both
sleep before each request; the single request site of
`scrape_main_rows.py` has no retry configuration and only a
rate-limiting sleep before the request. -/
theorem retry_policy_amended :
    hasFixedRetryPolicy scrapeItPageSite = true ∧
    hasFixedRetryPolicy scrapeItApiSite = true ∧
    scrapeItPageSite.retryConf = some scrapeItRetryConf ∧
    scrapeItApiSite.retryConf = some scrapeItRetryConf ∧
    scrapeItRetryConf.total = 5 ∧
    scrapeItRetryConf.respect_retry_after_header = true ∧
    scrapeItRetryConf.status_forcelist.contains 429 = true ∧
    scrapeItPageSite.manualExtraBackoffOn429 = true ∧
    scrapeItApiSite.manualExtraBackoffOn429 = true ∧
    scrapeMainRowsSite.retryConf = none ∧
    scrapeMainRowsSite.preRequestSleep = true := by
  decide

/-- C9: for a company with a non-empty quarterly file-id list and a
quarter `q` with `1 ≤ q ≤ 4` and `q ≤ length`, the `/quarterly`
handler returns the `q`-th file id counting from the end of the list
(`file_ids[-quarter]`, so quarter 1 is the last element); for any
quarter outside that range the handler never returns a file id. -/
theorem quarterly_by_quarter_indexing (cn : Int) (t : String) (l : List Nat) (q : Int)
    (ht : t ≠ "") (hl : l ≠ []) (h1 : 1 ≤ q) (h4 : q ≤ 4)
    (hq : q ≤ (l.length : Int)) :
    get_quarterly_files_by_quarter cn (some t) (some l) q =
      .ok { company_number := cn, ticker := t, quarter := q,
            quarterly_file_id := l.reverse.getD (q.toNat - 1) 0 } ∧
    (∀ q' : Int, (q' < 1 ∨ 4 < q' ∨ (l.length : Int) < q') →
      ∀ resp, get_quarterly_files_by_quarter cn (some t) (some l) q' ≠ .ok resp) := by
  have hidx : l.length - q.toNat < l.length := by
    have := List.length_pos.mpr hl
    omega
  constructor
  · have hpy : pyIndex l (-q) = some (l.get ⟨l.length - q.toNat, hidx⟩) := by
      unfold pyIndex
      dsimp only
      rw [if_pos (show (-q : Int) < 0 by omega)]
      rw [if_pos (show (0 : Int) ≤ (l.length : Int) + -q ∧
        (l.length : Int) + -q < (l.length : Int) by omega)]
      rw [show ((l.length : Int) + -q).toNat = l.length - q.toNat by omega]
      exact List.getElem?_eq_getElem hidx
    have hrev : l.reverse.getD (q.toNat - 1) 0 = l.get ⟨l.length - q.toNat, hidx⟩ := by
      have h1n : q.toNat - 1 < l.length := by omega
      rw [List.getD_eq_getElem?_getD, List.getElem?_reverse h1n,
        show l.length - 1 - (q.toNat - 1) = l.length - q.toNat by omega,
        List.getElem?_eq_getElem hidx]
      rfl
    have hinner : get_quarterly_files_by_quarter_inner cn (some t) (some l) q =
        .ok { company_number := cn, ticker := t, quarter := q,
              quarterly_file_id := l.get ⟨l.length - q.toNat, hidx⟩ } := by
      unfold get_quarterly_files_by_quarter_inner
      dsimp only
      rw [if_neg ht, if_neg hl,
        if_neg (show ¬(q < 1 ∨ 4 < q ∨ (l.length : Int) < q) by omega), hpy]
    unfold get_quarterly_files_by_quarter
    rw [hinner, hrev]
    rfl
  · intro q2 hq2 resp
    have hinner : get_quarterly_files_by_quarter_inner cn (some t) (some l) q2 =
        .error (.http 404 "Quarterly file for the requested quarter not available.") := by
      unfold get_quarterly_files_by_quarter_inner
      dsimp only
      rw [if_neg ht, if_neg hl, if_pos hq2]
    unfold get_quarterly_files_by_quarter
    rw [hinner]
    intro hcon
    exact ApiResult.noConfusion hcon

/-- C9 witness: quarter 2 of a four-element list is the second item
from the end, and quarter 5 is rejected. -/
theorem quarterly_by_quarter_indexing_witness :
    get_quarterly_files_by_quarter 7 (some "TCS") (some [11, 22, 33, 44]) 2 =
      .ok { company_number := 7, ticker := "TCS", quarter := 2,
            quarterly_file_id := 33 } := by
  have h := (quarterly_by_quarter_indexing 7 "TCS" [11, 22, 33, 44] 2
    (by decide) (by decide) (by decide) (by decide) (by decide)).1
  rw [h]
  decide

/-- C10: when the requested year range is empty (the Python
`range(start, end + 1)` produces nothing, e.g. `start_year` after
2025 or greater than `end_year`), the selected year columns fall
back to the full `mar_16`..`mar_25` list; the selection is never
empty, and every record the ratio service produces carries a header
row with at least one year column and one entry per selected year
column in each ratio's data item. -/
theorem ratio_year_cols_fallback :
    (∀ sy ey : Option Int, rawYearRange sy ey = [] →
      selectedYearCols sy ey = all_year_cols) ∧
    (∀ sy ey : Option Int, selectedYearCols sy ey ≠ []) ∧
    (∀ (cns : List Int) (sy ey : Option Int)
        (cd : List (Int × String × String)) (rd : List RatioRow)
        (rec : CompanyRatios), rec ∈ get_predefined_ratios cns sy ey cd rd →
      2 ≤ rec.headers.length ∧
      ∀ item ∈ rec.data, ∀ c ∈ selectedYearCols sy ey,
        hasKey item (headerOfCol c) = true) := by
  refine ⟨fun sy ey h => selectedYearCols_of_rawEmpty h,
    fun sy ey => selectedYearCols_ne_nil sy ey, ?_⟩
  intro cns sy ey cd rd rec hrec
  unfold get_predefined_ratios at hrec
  dsimp only at hrec
  rw [List.mem_filterMap] at hrec
  rcases hrec with ⟨cn, hcn, hsome⟩
  cases hinfo : companyDetailFor cd cn with
  | none =>
    rw [hinfo] at hsome
    cases hsome
  | some info =>
    rw [hinfo] at hsome
    dsimp only at hsome
    cases hsome
    constructor
    · dsimp only
      simp only [List.length_cons, List.length_map]
      have hne := selectedYearCols_ne_nil sy ey
      have hpos : 0 < (selectedYearCols sy ey).length := List.length_pos.mpr hne
      omega
    · intro item hitem c hc
      dsimp only at hitem
      rw [List.mem_map] at hitem
      rcases hitem with ⟨row, hrow, hfmt⟩
      rw [← hfmt]
      exact hasKey_formatDataItem _ row hc

/-- C10 witness: `start_year = 2030` makes the requested range empty,
the columns fall back to the full list, and a concrete service call
yields a record with a full header row. -/
theorem ratio_year_cols_fallback_witness :
    rawYearRange (some 2030) none = [] ∧
    selectedYearCols (some 2030) none = all_year_cols ∧
    2 ≤ ({ company_name := "Tata Consultancy", ticker := "TCS", company_number := 1,
           headers := "Ratio" :: all_year_cols.map headerOfCol,
           data := [] } : CompanyRatios).headers.length :=
  ⟨by decide,
   ratio_year_cols_fallback.1 (some 2030) none (by decide),
   (ratio_year_cols_fallback.2.2 [1] (some 2030) none
     [(1, "Tata Consultancy", "TCS")] []
     { company_name := "Tata Consultancy", ticker := "TCS", company_number := 1,
       headers := "Ratio" :: all_year_cols.map headerOfCol,
       data := [] } (by decide)).1⟩

end ELabs
